import Mathlib

/-!
Verification development for the bonsai relay (`relay/src/lib.rs`) and its
CLI variant (`methods/src/main.rs`).

Byte sequences are modelled as `List Nat` with each element `< 256` where it
matters; strings crossing the external boundary are modelled as `List Char`.
Effectful capabilities (local executor, remote proving client, chain client)
are passed in explicitly as function parameters or as scripted response
lists, mirroring how the Rust code consumes them.
-/

/-- One hexadecimal digit to its value; accepts both letter cases, as the
Rust `hex::decode` does. -/
def hexDigitVal? (c : Char) : Option Nat :=
  let n := c.toNat
  if 48 ≤ n ∧ n ≤ 57 then some (n - 48)
  else if 97 ≤ n ∧ n ≤ 102 then some (n - 87)
  else if 65 ≤ n ∧ n ≤ 70 then some (n - 55)
  else none

/-- `hex::decode`: an even-length string of hex digits to bytes; fails on an
odd length or a non-digit character. -/
def hexDecode? : List Char → Option (List Nat)
  | [] => some []
  | [_] => none
  | c1 :: c2 :: rest =>
    match hexDigitVal? c1, hexDigitVal? c2 with
    | some hi, some lo => (hexDecode? rest).map (fun bs => (16 * hi + lo) :: bs)
    | _, _ => none

/-- Value to lowercase hex digit: 0-9 then a-f (codepoints 48.. and 97..). -/
def natToHexDigit (n : Nat) : Char :=
  let k := n % 16
  Char.ofNat (if k < 10 then 48 + k else 87 + k)

/-- The sixteen lowercase hex digits, in value order. -/
def hexDigits : List Char := (List.range 16).map natToHexDigit

/-- `hex::encode`: bytes to a lowercase hex string, two digits per byte. -/
def hexEncode : List Nat → List Char
  | [] => []
  | b :: bs => natToHexDigit (b / 16) :: natToHexDigit (b % 16) :: hexEncode bs

/-- Rust `str::to_lowercase`, restricted to the ASCII range used here. -/
def toLowerStr (s : List Char) : List Char := s.map Char.toLower

/-- Rust `str::to_uppercase`, restricted to the ASCII range used here. -/
def toUpperStr (s : List Char) : List Char := s.map Char.toUpper

/-- Rust `str::trim_start_matches("0x")`: repeatedly strip a leading `0x`. -/
def trimStartMatches0x : List Char → List Char
  | c1 :: c2 :: rest =>
    if c1 = '0' ∧ c2 = 'x' then trimStartMatches0x rest else c1 :: c2 :: rest
  | s => s

/-- One entry of the generated `GUEST_LIST` (`risc0_build::GuestListEntry`):
the logical name, the image id already cast from `[u32; 8]` to its 32 bytes
(`bytemuck::cast` is the identity on the underlying bytes), and the ELF
binary. -/
structure GuestListEntry where
  name : List Char
  imageId : List Nat
  elf : List Nat
deriving DecidableEq

/-- The 32-byte all-zero fallback produced by `unwrap_or([0u8; 32])`. -/
def zeroImageId : List Nat := List.replicate 32 0

/-- `relay/src/lib.rs` lines 122-126 (and the identical code in
`methods/src/main.rs` lines 130-134): lowercase the selector, strip a
leading `0x`, hex-decode; on decode failure or a length other than 32,
fall back to the all-zero id. -/
def potentialGuestImageId (guest_binary : List Char) : List Nat :=
  match hexDecode? (trimStartMatches0x (toLowerStr guest_binary)) with
  | some byte_vector => if byte_vector.length = 32 then byte_vector else zeroImageId
  | none => zeroImageId

/-- The predicate of the `find` on lines 129-132: match by uppercased name
or by decoded image id. -/
def entryMatchesSelector (guest_binary : List Char) (entry : GuestListEntry) : Bool :=
  decide (entry.name = toUpperStr guest_binary) ||
    decide (entry.imageId = potentialGuestImageId guest_binary)

/-- `resolve_guest_entry` (lines 117-144): first matching entry, `none` for
the `Unknown guest binary` error. -/
def resolve_guest_entry (guest_list : List GuestListEntry) (guest_binary : List Char) :
    Option GuestListEntry :=
  guest_list.find? (entryMatchesSelector guest_binary)

/-- The input decode at line 147: strip a leading `0x` (no lowercasing
here), then hex-decode. -/
def relayDecodeInput (input : List Char) : Option (List Nat) :=
  hexDecode? (trimStartMatches0x input)

/-- The `BONSAI_PROVING` value selecting the remote backend. -/
def bonsaiKeyword : List Char := ['b', 'o', 'n', 's', 'a', 'i']

/-- The `BONSAI_PROVING` value selecting local proving. -/
def localKeyword : List Char := ['l', 'o', 'c', 'a', 'l']

/-- `resolve_image_output` (lines 146-158). The two backends are passed in
as capabilities: `prove_locally elf input prove` models the local executor
(lines 36-56; the `prove` flag decides whether a proof is generated) and
`prove_alpha_cap elf input` the remote backend. `prover` is the value of the
`BONSAI_PROVING` environment variable, `[]` when unset (`unwrap_or("")`).
The input is hex-decoded first; then `"bonsai"` goes remote, `"local"` runs
locally with a proof, and every other value runs locally without one. -/
def resolve_image_output
    (prove_locally : List Nat → List Nat → Bool → Except String (List Nat))
    (prove_alpha_cap : List Nat → List Nat → Except String (List Nat))
    (prover : List Char) (input : List Char) (guest_entry : GuestListEntry) :
    Except String (List Nat) :=
  match relayDecodeInput input with
  | none => Except.error "Failed to decode input"
  | some input_bytes =>
    if prover = bonsaiKeyword then prove_alpha_cap guest_entry.elf input_bytes
    else if prover = localKeyword then prove_locally guest_entry.elf input_bytes true
    else prove_locally guest_entry.elf input_bytes false

/-- Fixed backoff interval (line 58). -/
def POLL_INTERVAL_SEC : Nat := 4

/-- A remote session status response: the `status` string and the optional
`receipt_url`. -/
structure StatusResponse where
  status : String
  receipt_url : Option String
deriving DecidableEq

/-- The decoded remote receipt; only the journal is consumed. -/
structure SessionReceipt where
  journal : List Nat
deriving DecidableEq

/-- Terminal outcome of a `prove_alpha` run. `scriptEnded` marks a run whose
finite response script ran out while the loop was still polling (the real
loop would still be running). -/
inductive AlphaOutcome
  | success (journal : List Nat)
  | uploadFailed (msg : String)
  | uploadInputFailed (msg : String)
  | createSessionFailed (msg : String)
  | missingReceiptUrl
  | downloadFailed
  | deserializeFailed
  | badStatus (s : String)
  | scriptEnded
deriving DecidableEq

/-- The poll loop of `prove_alpha` (lines 85-114), driven by a finite script
of status-query responses. The first component collects the durations of the
`thread::sleep` calls performed, in order. A query error (`Err`) is logged
and answered with a backoff sleep, then the loop continues; `RUNNING` sleeps
and re-polls; `SUCCEEDED` downloads and decodes the receipt; any other
status is a terminal failure. -/
def pollLoop (download : String → Option (List Nat))
    (deserialize : List Nat → Option SessionReceipt) :
    List (Except String StatusResponse) → List Nat × AlphaOutcome
  | [] => ([], AlphaOutcome.scriptEnded)
  | Except.error _ :: rest =>
    let r := pollLoop download deserialize rest
    (POLL_INTERVAL_SEC :: r.1, r.2)
  | Except.ok res :: rest =>
    if res.status = "RUNNING" then
      let r := pollLoop download deserialize rest
      (POLL_INTERVAL_SEC :: r.1, r.2)
    else if res.status = "SUCCEEDED" then
      match res.receipt_url with
      | none => ([], AlphaOutcome.missingReceiptUrl)
      | some url =>
        match download url with
        | none => ([], AlphaOutcome.downloadFailed)
        | some receipt_buf =>
          match deserialize receipt_buf with
          | none => ([], AlphaOutcome.deserializeFailed)
          | some receipt => ([], AlphaOutcome.success receipt.journal)
    else ([], AlphaOutcome.badStatus res.status)

/-- Result of one `upload_img` call (`Ok(())`, `Err(SdkErr::ImageIdExists)`,
or any other error). -/
inductive UploadImgResult
  | ok
  | imageIdExists
  | err (msg : String)
deriving DecidableEq

/-- Scripted responses of the remote client for one `prove_alpha` run.
`uploadImgResults` lists the responses the service would give to successive
`upload_img` calls (so that how many are consumed is observable). -/
structure AlphaScript where
  uploadImgResults : List UploadImgResult
  uploadInputResult : Except String Nat
  createSessionResult : Except String Nat
  statusResults : List (Except String StatusResponse)
  download : String → Option (List Nat)
  deserialize : List Nat → Option SessionReceipt

/-- Observable calls made by a `prove_alpha` run. -/
structure AlphaTrace where
  uploadImgCalls : Nat
  uploadInputCalls : Nat
  sleeps : List Nat
deriving DecidableEq

/-- `prove_alpha` (lines 66-115) against a scripted client. `upload_img` is
called exactly once; `Ok` and `ImageIdExists` both fall through to the input
upload, any other error returns at once. Then `upload_input` and
`create_session`, then the poll loop. -/
def prove_alpha (s : AlphaScript) : AlphaTrace × AlphaOutcome :=
  match s.uploadImgResults with
  | [] => (⟨1, 0, []⟩, AlphaOutcome.scriptEnded)
  | r :: _ =>
    match r with
    | UploadImgResult.err msg => (⟨1, 0, []⟩, AlphaOutcome.uploadFailed msg)
    | _ =>
      match s.uploadInputResult with
      | Except.error msg => (⟨1, 1, []⟩, AlphaOutcome.uploadInputFailed msg)
      | Except.ok _input_id =>
        match s.createSessionResult with
        | Except.error msg => (⟨1, 1, []⟩, AlphaOutcome.createSessionFailed msg)
        | Except.ok _session =>
          let r := pollLoop s.download s.deserialize s.statusResults
          (⟨1, 1, r.1⟩, r.2)

/-- A decoded `CallbackRequest(address,bytes32,bytes,address,bytes4,uint64)`
event. Addresses are abstracted to `Nat`. -/
structure CallbackRequest where
  account : Nat
  image_id : List Nat
  input : List Nat
  callback_contract : Nat
  function_selector : List Nat
  gas_limit : Nat
deriving DecidableEq

/-- The `Callback` struct submitted through `invoke_callbacks`. -/
structure Callback where
  callback_contract : Nat
  journal_inclusion_proof : List (List Nat)
  payload : List Nat
  gas_limit : Nat
deriving DecidableEq

/-- The payload assembly of lines 197-202:
`[function_selector, journal, image_id].concat()`. -/
def buildPayload (function_selector journal_bytes image_id : List Nat) : List Nat :=
  function_selector ++ journal_bytes ++ image_id

/-- The body of one iteration of `run_with_ethers_client` (lines 185-210):
hex-encode the event's image id and resolve it, hex-encode the input and
dispatch it, then build the callback. Each `.expect(...)` is modelled as an
`Except.error` carrying the panic message. -/
def processEvent (guest_list : List GuestListEntry)
    (prove_locally : List Nat → List Nat → Bool → Except String (List Nat))
    (prove_alpha_cap : List Nat → List Nat → Except String (List Nat))
    (prover : List Char) (event : CallbackRequest) : Except String Callback :=
  match resolve_guest_entry guest_list (hexEncode event.image_id) with
  | none => Except.error "Failed to resolve guest entry"
  | some guest_entry =>
    match resolve_image_output prove_locally prove_alpha_cap prover
        (hexEncode event.input) guest_entry with
    | Except.error _ => Except.error "Failed to compute journal output"
    | Except.ok journal_bytes =>
      Except.ok
        ⟨event.callback_contract, [],
          buildPayload event.function_selector journal_bytes event.image_id,
          event.gas_limit⟩

/-- The relay loop of `run_with_ethers_client` over a finite event stream:
each successfully processed event submits its callback (transaction
submission itself is assumed to succeed); a processing failure is an
`.expect` panic, which ends the loop at once — the second component carries
the panic message, and no later event is processed. -/
def relayLoop (guest_list : List GuestListEntry)
    (prove_locally : List Nat → List Nat → Bool → Except String (List Nat))
    (prove_alpha_cap : List Nat → List Nat → Except String (List Nat))
    (prover : List Char) : List CallbackRequest → List Callback × Option String
  | [] => ([], none)
  | event :: rest =>
    match processEvent guest_list prove_locally prove_alpha_cap prover event with
    | Except.error msg => ([], some msg)
    | Except.ok cb =>
      let r := relayLoop guest_list prove_locally prove_alpha_cap prover rest
      (cb :: r.1, r.2)

/-- The input decode of the CLI variant, `methods/src/main.rs` line 145:
`hex::decode(&input[2..])` slices off the first two characters
unconditionally (for a string shorter than two bytes the slice panics,
modelled as `none`). -/
def cliDecodeInput (s : List Char) : Option (List Nat) :=
  if s.length < 2 then none
  else hexDecode? (s.drop 2)

/-- `methods/src/main.rs` `main` (lines 126-163), from parsed arguments to
the string printed to stdout. Lines 130-141 duplicate `resolve_guest_entry`
verbatim, so that definition is reused. `bonsaiEndpointSet` is whether
`BONSAI_ENDPOINT` is set, `alphaSel` the result of `alpha_selector()`;
`prove_locally_cli` and `prove_alpha_cli` are the two backends (the CLI's
local path proves only when `PROVE_LOCALLY` is set, internal to the
capability here). With no input argument, the image id bytes are the output;
the printed string is always the hex encoding of the output bytes. -/
def cliMain
    (prove_locally_cli : List Nat → List Nat → Except String (List Nat))
    (prove_alpha_cli : List Nat → List Nat → Except String (List Nat))
    (bonsaiEndpointSet : Bool) (alphaSel : Bool)
    (guest_list : List GuestListEntry) (guest_binary : List Char)
    (input : Option (List Char)) : Except String (List Char) :=
  match resolve_guest_entry guest_list guest_binary with
  | none => Except.error "Unknown guest binary"
  | some guest_entry =>
    match input with
    | some inp =>
      match cliDecodeInput inp with
      | none => Except.error "Failed to decode input"
      | some input_bytes =>
        if bonsaiEndpointSet then
          if alphaSel then (prove_alpha_cli guest_entry.elf input_bytes).map hexEncode
          else Except.error "unsupported backend"
        else (prove_locally_cli guest_entry.elf input_bytes).map hexEncode
    | none => Except.ok (hexEncode guest_entry.imageId)

lemma hexDigitVal_natToHexDigit (k : Nat) (hk : k < 16) :
    hexDigitVal? (natToHexDigit k) = some k := by
  have h : ∀ m < 16, hexDigitVal? (natToHexDigit m) = some m := by decide
  exact h k hk

lemma natToHexDigit_mem_hexDigits (k : Nat) : natToHexDigit k ∈ hexDigits := by
  have h : ∀ m < 16, natToHexDigit m ∈ hexDigits := by decide
  have := h (k % 16) (Nat.mod_lt _ (by norm_num))
  have hmm : k % 16 % 16 = k % 16 := by omega
  simpa [natToHexDigit, hmm] using this

lemma toLower_natToHexDigit (k : Nat) :
    Char.toLower (natToHexDigit k) = natToHexDigit k := by
  have h : ∀ m < 16, Char.toLower (natToHexDigit m) = natToHexDigit m := by decide
  have := h (k % 16) (Nat.mod_lt _ (by norm_num))
  have hmm : k % 16 % 16 = k % 16 := by omega
  simpa [natToHexDigit, hmm] using this

lemma natToHexDigit_ne_x (k : Nat) : natToHexDigit k ≠ 'x' := by
  have h : ∀ m < 16, natToHexDigit m ≠ 'x' := by decide
  have := h (k % 16) (Nat.mod_lt _ (by norm_num))
  have hmm : k % 16 % 16 = k % 16 := by omega
  simpa [natToHexDigit, hmm] using this

lemma hexDecode_hexEncode (bs : List Nat) (hb : ∀ b ∈ bs, b < 256) :
    hexDecode? (hexEncode bs) = some bs := by
  induction bs with
  | nil => rfl
  | cons b bs ih =>
    have hblt : b < 256 := hb b (by simp)
    have hhi : b / 16 < 16 := by omega
    have hlo : b % 16 < 16 := Nat.mod_lt _ (by norm_num)
    have ih' := ih (fun x hx => hb x (by simp [hx]))
    simp [hexEncode, hexDecode?, hexDigitVal_natToHexDigit _ hhi,
      hexDigitVal_natToHexDigit _ hlo, ih', Nat.div_add_mod]

lemma toLowerStr_hexEncode (bs : List Nat) :
    toLowerStr (hexEncode bs) = hexEncode bs := by
  induction bs with
  | nil => rfl
  | cons b bs ih =>
    simp [hexEncode, toLowerStr, toLower_natToHexDigit] at ih ⊢
    simpa [toLowerStr] using ih

lemma trimStartMatches0x_hexEncode (bs : List Nat) :
    trimStartMatches0x (hexEncode bs) = hexEncode bs := by
  cases bs with
  | nil => rfl
  | cons b bs =>
    simp [hexEncode, trimStartMatches0x, natToHexDigit_ne_x (b % 16)]

lemma hexEncode_length (bs : List Nat) : (hexEncode bs).length = 2 * bs.length := by
  induction bs with
  | nil => rfl
  | cons b bs ih => simp [hexEncode, ih]; ring

lemma hexEncode_mem_hexDigits (bs : List Nat) :
    ∀ c ∈ hexEncode bs, c ∈ hexDigits := by
  induction bs with
  | nil => simp [hexEncode]
  | cons b bs ih =>
    intro c hc
    simp [hexEncode] at hc
    rcases hc with h | h | h
    · exact h ▸ natToHexDigit_mem_hexDigits _
    · exact h ▸ natToHexDigit_mem_hexDigits _
    · exact ih c h

lemma find?_eq_some_of_unique {α : Type} (p : α → Bool) (l : List α) (e : α)
    (hmem : e ∈ l) (hp : p e = true) (hu : ∀ x ∈ l, p x = true → x = e) :
    l.find? p = some e := by
  induction l with
  | nil => cases hmem
  | cons a l ih =>
    by_cases ha : p a = true
    · have he : a = e := hu a (by simp) ha
      subst he
      simp [List.find?, ha]
    · have ha' : p a = false := by simpa using ha
      have hae : e ∈ l := by
        rcases List.mem_cons.mp hmem with h | h
        · exact absurd (h ▸ hp) ha
        · exact h
      have hfind := ih hae (fun x hx hpx => hu x (by simp [hx]) hpx)
      simp [List.find?, ha', hfind]

lemma potentialGuestImageId_hexEncode (id : List Nat) (hlen : id.length = 32)
    (hb : ∀ b ∈ id, b < 256) :
    potentialGuestImageId (hexEncode id) = id := by
  simp [potentialGuestImageId, toLowerStr_hexEncode, trimStartMatches0x_hexEncode,
    hexDecode_hexEncode id hb, hlen]

lemma toLowerStr_prefixed (s : List Char) :
    toLowerStr ('0' :: 'x' :: s) = '0' :: 'x' :: toLowerStr s := by
  simp [toLowerStr]

lemma potentialGuestImageId_hexEncode_prefixed (id : List Nat) (hlen : id.length = 32)
    (hb : ∀ b ∈ id, b < 256) :
    potentialGuestImageId ('0' :: 'x' :: hexEncode id) = id := by
  have h1 : trimStartMatches0x (toLowerStr ('0' :: 'x' :: hexEncode id)) =
      hexEncode id := by
    rw [toLowerStr_prefixed, toLowerStr_hexEncode]
    simp [trimStartMatches0x, trimStartMatches0x_hexEncode]
  simp [potentialGuestImageId, h1, hexDecode_hexEncode id hb, hlen]

/-- C7: for a registered entry, resolving by its logical name written in any
letter case (any selector whose uppercasing is the entry's stored name — the
generated registry stores names uppercased), and by the lowercase hex
encoding of its 32-byte content identifier with or without a leading `0x`,
all return that entry, provided the entry is the unique match for each
selector (the registry's unambiguity invariant). -/
theorem C7_resolve_by_name_and_hex (gl : List GuestListEntry) (e : GuestListEntry)
    (s : List Char)
    (hmem : e ∈ gl)
    (hlen : e.imageId.length = 32)
    (hbytes : ∀ b ∈ e.imageId, b < 256)
    (hname : toUpperStr s = e.name)
    (hu1 : ∀ x ∈ gl, entryMatchesSelector s x = true → x = e)
    (hu2 : ∀ x ∈ gl, entryMatchesSelector (hexEncode e.imageId) x = true → x = e)
    (hu3 : ∀ x ∈ gl, entryMatchesSelector ('0' :: 'x' :: hexEncode e.imageId) x = true → x = e) :
    resolve_guest_entry gl s = some e ∧
    resolve_guest_entry gl (hexEncode e.imageId) = some e ∧
    resolve_guest_entry gl ('0' :: 'x' :: hexEncode e.imageId) = some e := by
  refine ⟨?_, ?_, ?_⟩
  · exact find?_eq_some_of_unique _ gl e hmem
      (by simp [entryMatchesSelector, hname]) hu1
  · exact find?_eq_some_of_unique _ gl e hmem
      (by simp [entryMatchesSelector, potentialGuestImageId_hexEncode e.imageId hlen hbytes]) hu2
  · exact find?_eq_some_of_unique _ gl e hmem
      (by simp [entryMatchesSelector,
        potentialGuestImageId_hexEncode_prefixed e.imageId hlen hbytes]) hu3

/-- Witness for C7 on a one-entry registry. -/
theorem C7_witness :
    resolve_guest_entry [⟨['F', 'I', 'B'], List.replicate 32 1, []⟩] ['f', 'i', 'b'] =
      some ⟨['F', 'I', 'B'], List.replicate 32 1, []⟩ ∧
    resolve_guest_entry [⟨['F', 'I', 'B'], List.replicate 32 1, []⟩]
      (hexEncode (List.replicate 32 1)) =
      some ⟨['F', 'I', 'B'], List.replicate 32 1, []⟩ ∧
    resolve_guest_entry [⟨['F', 'I', 'B'], List.replicate 32 1, []⟩]
      ('0' :: 'x' :: hexEncode (List.replicate 32 1)) =
      some ⟨['F', 'I', 'B'], List.replicate 32 1, []⟩ :=
  C7_resolve_by_name_and_hex [⟨['F', 'I', 'B'], List.replicate 32 1, []⟩]
    ⟨['F', 'I', 'B'], List.replicate 32 1, []⟩ ['f', 'i', 'b']
    (by decide) (by decide) (by decide) (by decide) (by decide) (by decide) (by decide)

/-- C8 counterexample: the selector `zz` is not valid hex, yet on a registry
whose entry has the all-zero content identifier it resolves via the
content-identifier path (the name does not match), because malformed hex is
mapped to the all-zero sentinel rather than to a guaranteed non-match. -/
theorem C8_counterexample :
    hexDecode? (trimStartMatches0x (toLowerStr ['z', 'z'])) = none ∧
    resolve_guest_entry [⟨['F', 'O', 'O'], List.replicate 32 0, []⟩] ['z', 'z'] =
      some ⟨['F', 'O', 'O'], List.replicate 32 0, []⟩ ∧
    (⟨['F', 'O', 'O'], List.replicate 32 0, []⟩ : GuestListEntry).name ≠
      toUpperStr ['z', 'z'] := by
  decide

/-- C8 amended: a selector that is not valid hex is compared, on the
content-identifier path, against the all-zero 32-byte sentinel; when no
registry entry has the all-zero identifier, such a selector can resolve only
via the logical-name comparison. -/
theorem C8_malformed_hex_resolves_by_name_only (gl : List GuestListEntry)
    (s : List Char) (e : GuestListEntry)
    (hmal : hexDecode? (trimStartMatches0x (toLowerStr s)) = none)
    (hnz : ∀ x ∈ gl, x.imageId ≠ zeroImageId)
    (hres : resolve_guest_entry gl s = some e) :
    e.name = toUpperStr s := by
  have hp : entryMatchesSelector s e = true := List.find?_some hres
  have hmem : e ∈ gl := List.mem_of_find?_eq_some hres
  have hzero : potentialGuestImageId s = zeroImageId := by
    simp [potentialGuestImageId, hmal]
  have hp' : e.name = toUpperStr s ∨ e.imageId = potentialGuestImageId s := by
    simpa [entryMatchesSelector] using hp
  rcases hp' with h | h
  · exact h
  · exact absurd (h.trans hzero) (hnz e hmem)

/-- Witness for the amended C8: the selector `foo` (odd length, not valid
hex) resolves only via the name path on a registry with a nonzero id. -/
theorem C8_witness :
    (⟨['F', 'O', 'O'], List.replicate 32 1, []⟩ : GuestListEntry).name =
      toUpperStr ['f', 'o', 'o'] :=
  C8_malformed_hex_resolves_by_name_only
    [⟨['F', 'O', 'O'], List.replicate 32 1, []⟩] ['f', 'o', 'o']
    ⟨['F', 'O', 'O'], List.replicate 32 1, []⟩
    (by decide) (by decide) (by decide)

/-- C2 counterexample: with the unrecognized selector `garbage`, dispatch
does not fail with a configuration error — it invokes the local executor
without an attestation and returns its output; and with the selector
`local`, the local executor is invoked with the attestation flag set (the
capability below returns `[1]` exactly when asked for a proof). -/
theorem C2_counterexample :
    resolve_image_output (fun _ _ prove => Except.ok [if prove then 1 else 0])
      (fun _ _ => Except.error "remote")
      ['g', 'a', 'r', 'b', 'a', 'g', 'e'] [] ⟨[], [], []⟩ = Except.ok [0] ∧
    resolve_image_output (fun _ _ prove => Except.ok [if prove then 1 else 0])
      (fun _ _ => Except.error "remote")
      localKeyword [] ⟨[], [], []⟩ = Except.ok [1] := by
  refine ⟨rfl, rfl⟩

/-- C2 amended: once the input hex-decodes, `bonsai` delegates to the remote
backend, `local` executes locally with an attestation, and every other
selector value (the unset empty string included) executes locally without an
attestation; no selector value is rejected as a configuration error. -/
theorem C2_dispatch_modes
    (prove_locally : List Nat → List Nat → Bool → Except String (List Nat))
    (prove_alpha_cap : List Nat → List Nat → Except String (List Nat))
    (guest_entry : GuestListEntry) (input : List Char) (input_bytes : List Nat)
    (hdec : relayDecodeInput input = some input_bytes) :
    resolve_image_output prove_locally prove_alpha_cap bonsaiKeyword input guest_entry =
      prove_alpha_cap guest_entry.elf input_bytes ∧
    resolve_image_output prove_locally prove_alpha_cap localKeyword input guest_entry =
      prove_locally guest_entry.elf input_bytes true ∧
    ∀ prover : List Char, prover ≠ bonsaiKeyword → prover ≠ localKeyword →
      resolve_image_output prove_locally prove_alpha_cap prover input guest_entry =
        prove_locally guest_entry.elf input_bytes false := by
  refine ⟨?_, ?_, ?_⟩
  · simp [resolve_image_output, hdec]
  · have hne : localKeyword ≠ bonsaiKeyword := by decide
    simp [resolve_image_output, hdec, hne]
  · intro prover h1 h2
    simp [resolve_image_output, hdec, h1, h2]

/-- Witness for the amended C2 at the empty input and a concrete unrecognized
selector. -/
theorem C2_witness :
    resolve_image_output (fun _ _ _ => Except.ok [3]) (fun _ _ => Except.ok [4])
      bonsaiKeyword [] ⟨[], [], [9]⟩ = Except.ok [4] ∧
    resolve_image_output (fun _ _ _ => Except.ok [3]) (fun _ _ => Except.ok [4])
      localKeyword [] ⟨[], [], [9]⟩ = Except.ok [3] ∧
    ∀ prover : List Char, prover ≠ bonsaiKeyword → prover ≠ localKeyword →
      resolve_image_output (fun _ _ _ => Except.ok [3]) (fun _ _ => Except.ok [4])
        prover [] ⟨[], [], [9]⟩ = Except.ok [3] :=
  C2_dispatch_modes (fun _ _ _ => Except.ok [3]) (fun _ _ => Except.ok [4])
    ⟨[], [], [9]⟩ [] [] rfl

/-- C4: a scripted status sequence Running, Running, Succeeded performs
exactly two backoff sleeps before returning the journal, and a first status
of Succeeded without a receipt location fails with the missing-receipt-url
outcome without any sleep. -/
theorem C4_poll_sleep_counts
    (download : String → Option (List Nat))
    (deserialize : List Nat → Option SessionReceipt)
    (url : String) (receipt_buf : List Nat) (receipt : SessionReceipt)
    (u1 u2 : Option String) (rest : List (Except String StatusResponse))
    (hd : download url = some receipt_buf)
    (hde : deserialize receipt_buf = some receipt) :
    pollLoop download deserialize
      [Except.ok ⟨"RUNNING", u1⟩, Except.ok ⟨"RUNNING", u2⟩,
        Except.ok ⟨"SUCCEEDED", some url⟩] =
      ([POLL_INTERVAL_SEC, POLL_INTERVAL_SEC], AlphaOutcome.success receipt.journal) ∧
    pollLoop download deserialize (Except.ok ⟨"SUCCEEDED", none⟩ :: rest) =
      ([], AlphaOutcome.missingReceiptUrl) := by
  constructor
  · simp [pollLoop, hd, hde]
  · simp [pollLoop]

/-- Witness for C4 with concrete download and decode capabilities. -/
theorem C4_witness :
    pollLoop (fun _ => some [5]) (fun _ => some ⟨[7]⟩)
      [Except.ok ⟨"RUNNING", none⟩, Except.ok ⟨"RUNNING", none⟩,
        Except.ok ⟨"SUCCEEDED", some "u"⟩] =
      ([POLL_INTERVAL_SEC, POLL_INTERVAL_SEC], AlphaOutcome.success [7]) ∧
    pollLoop (fun _ => some [5]) (fun _ => some ⟨[7]⟩)
      (Except.ok ⟨"SUCCEEDED", none⟩ :: []) =
      ([], AlphaOutcome.missingReceiptUrl) :=
  C4_poll_sleep_counts (fun _ => some [5]) (fun _ => some ⟨[7]⟩)
    "u" [5] ⟨[7]⟩ none none [] rfl rfl

/-- C5: any number of transient status-query errors is absorbed by the poll
loop — each one adds exactly one backoff sleep of the fixed 4-second
interval and the loop re-polls, and the final outcome is exactly that of the
remaining script, so a query error is never surfaced; the count `n` is
unbounded. -/
theorem C5_transient_errors_absorbed
    (download : String → Option (List Nat))
    (deserialize : List Nat → Option SessionReceipt) :
    (∀ (n : Nat) (msg : String) (rest : List (Except String StatusResponse)),
      pollLoop download deserialize (List.replicate n (Except.error msg) ++ rest) =
        (List.replicate n POLL_INTERVAL_SEC ++ (pollLoop download deserialize rest).1,
          (pollLoop download deserialize rest).2)) ∧
    POLL_INTERVAL_SEC = 4 := by
  constructor
  · intro n msg rest
    induction n with
    | zero => simp
    | succ n ih => simp [List.replicate_succ, pollLoop, ih]
  · rfl

/-- C6: in the upload step of `prove_alpha`, an image-already-exists
response is treated exactly like a successful upload (the run proceeds to
the input upload, called once), while any other upload error fails the run
immediately: the trace shows one `upload_img` call and zero `upload_input`
calls, regardless of what later responses the script holds — there is no
retry at the upload step. -/
theorem C6_upload_exists_ok_other_errors_fail
    (rest : List UploadImgResult) (inRes csRes : Except String Nat)
    (stRes : List (Except String StatusResponse))
    (download : String → Option (List Nat))
    (deserialize : List Nat → Option SessionReceipt) (msg : String) :
    prove_alpha ⟨UploadImgResult.imageIdExists :: rest, inRes, csRes, stRes,
        download, deserialize⟩ =
      prove_alpha ⟨UploadImgResult.ok :: rest, inRes, csRes, stRes,
        download, deserialize⟩ ∧
    (prove_alpha ⟨UploadImgResult.imageIdExists :: rest, inRes, csRes, stRes,
        download, deserialize⟩).1.uploadInputCalls = 1 ∧
    prove_alpha ⟨UploadImgResult.err msg :: rest, inRes, csRes, stRes,
        download, deserialize⟩ =
      (⟨1, 0, []⟩, AlphaOutcome.uploadFailed msg) := by
  refine ⟨rfl, ?_, rfl⟩
  cases inRes with
  | error m => rfl
  | ok v =>
    cases csRes with
    | error m => rfl
    | ok w => rfl

/-- C1 counterexample: a stream of two events in which the first carries an
unknown content identifier and the second is fully processable. The second
event would produce a callback on its own, yet the loop over the two-event
stream submits no callback at all and ends with the panic message of the
first event's `.expect`: the failing event terminates the relay loop instead
of being skipped. -/
theorem C1_counterexample :
    processEvent [⟨['F', 'I', 'B'], List.replicate 32 1, []⟩]
      (fun _ _ _ => Except.ok []) (fun _ _ => Except.error "r") []
      ⟨0, List.replicate 32 1, [], 7, [1, 2, 3, 4], 5⟩ =
      Except.ok ⟨7, [], [1, 2, 3, 4] ++ [] ++ List.replicate 32 1, 5⟩ ∧
    relayLoop [⟨['F', 'I', 'B'], List.replicate 32 1, []⟩]
      (fun _ _ _ => Except.ok []) (fun _ _ => Except.error "r") []
      [⟨0, List.replicate 32 2, [], 7, [1, 2, 3, 4], 5⟩,
        ⟨0, List.replicate 32 1, [], 7, [1, 2, 3, 4], 5⟩] =
      ([], some "Failed to resolve guest entry") := by
  exact ⟨rfl, rfl⟩

/-- C1 amended: an event whose processing fails (unresolvable content
identifier or failed dispatch) produces zero callback submissions and
terminates the relay loop with that panic message; the remaining events of
the stream are never processed. -/
theorem C1_failing_event_halts_loop (gl : List GuestListEntry)
    (prove_locally : List Nat → List Nat → Bool → Except String (List Nat))
    (prove_alpha_cap : List Nat → List Nat → Except String (List Nat))
    (prover : List Char) (event : CallbackRequest)
    (rest : List CallbackRequest) (msg : String)
    (h : processEvent gl prove_locally prove_alpha_cap prover event =
      Except.error msg) :
    relayLoop gl prove_locally prove_alpha_cap prover (event :: rest) =
      ([], some msg) := by
  simp [relayLoop, h]

/-- Witness for the amended C1 at a concrete unknown-image event. -/
theorem C1_witness :
    relayLoop [⟨['F', 'I', 'B'], List.replicate 32 1, []⟩]
      (fun _ _ _ => Except.ok []) (fun _ _ => Except.error "r") []
      [⟨0, List.replicate 32 2, [], 7, [1, 2, 3, 4], 5⟩] =
      ([], some "Failed to resolve guest entry") :=
  C1_failing_event_halts_loop [⟨['F', 'I', 'B'], List.replicate 32 1, []⟩]
    (fun _ _ _ => Except.ok []) (fun _ _ => Except.error "r") []
    ⟨0, List.replicate 32 2, [], 7, [1, 2, 3, 4], 5⟩ [] "Failed to resolve guest entry"
    rfl

/-- C3: a processed request's callback payload is exactly
function_selector ++ output ++ content_id, and at the spec's concrete
example the payload is the 38-byte sequence AA BB CC DD 01 02 followed by
32 zero bytes. -/
theorem C3_payload_is_selector_output_id (gl : List GuestListEntry)
    (prove_locally : List Nat → List Nat → Bool → Except String (List Nat))
    (prove_alpha_cap : List Nat → List Nat → Except String (List Nat))
    (prover : List Char) (event : CallbackRequest) (guest_entry : GuestListEntry)
    (journal_bytes : List Nat)
    (h1 : resolve_guest_entry gl (hexEncode event.image_id) = some guest_entry)
    (h2 : resolve_image_output prove_locally prove_alpha_cap prover
      (hexEncode event.input) guest_entry = Except.ok journal_bytes) :
    processEvent gl prove_locally prove_alpha_cap prover event =
      Except.ok ⟨event.callback_contract, [],
        event.function_selector ++ journal_bytes ++ event.image_id,
        event.gas_limit⟩ ∧
    buildPayload [0xAA, 0xBB, 0xCC, 0xDD] [0x01, 0x02] (List.replicate 32 0) =
      [0xAA, 0xBB, 0xCC, 0xDD, 0x01, 0x02] ++ List.replicate 32 0 ∧
    (buildPayload [0xAA, 0xBB, 0xCC, 0xDD] [0x01, 0x02]
      (List.replicate 32 0)).length = 38 := by
  refine ⟨?_, by decide, by decide⟩
  simp [processEvent, h1, h2, buildPayload]

/-- Witness for C3 at a concrete event and local executor. -/
theorem C3_witness :
    processEvent [⟨['F', 'I', 'B'], List.replicate 32 1, []⟩]
      (fun _ _ _ => Except.ok [1, 2]) (fun _ _ => Except.error "r") []
      ⟨0, List.replicate 32 1, [], 7, [0xAA, 0xBB, 0xCC, 0xDD], 5⟩ =
      Except.ok ⟨7, [], [0xAA, 0xBB, 0xCC, 0xDD] ++ [1, 2] ++ List.replicate 32 1, 5⟩ ∧
    buildPayload [0xAA, 0xBB, 0xCC, 0xDD] [0x01, 0x02] (List.replicate 32 0) =
      [0xAA, 0xBB, 0xCC, 0xDD, 0x01, 0x02] ++ List.replicate 32 0 ∧
    (buildPayload [0xAA, 0xBB, 0xCC, 0xDD] [0x01, 0x02]
      (List.replicate 32 0)).length = 38 :=
  C3_payload_is_selector_output_id [⟨['F', 'I', 'B'], List.replicate 32 1, []⟩]
    (fun _ _ _ => Except.ok [1, 2]) (fun _ _ => Except.error "r") []
    ⟨0, List.replicate 32 1, [], 7, [0xAA, 0xBB, 0xCC, 0xDD], 5⟩
    ⟨['F', 'I', 'B'], List.replicate 32 1, []⟩ [1, 2] rfl rfl

/-- C9: the relay boundary decodes hex input identically with and without a
leading 0x, but the CLI variant slices off the first two characters
unconditionally, so the unprefixed encoding of the bytes 01 02 silently
decodes to the single byte 02 there — the first byte is dropped. -/
theorem C9_cli_drops_unprefixed_bytes :
    relayDecodeInput ['0', 'x', '0', '1', '0', '2'] = some [1, 2] ∧
    relayDecodeInput ['0', '1', '0', '2'] = some [1, 2] ∧
    cliDecodeInput ['0', 'x', '0', '1', '0', '2'] = some [1, 2] ∧
    cliDecodeInput ['0', '1', '0', '2'] = some [2] := by
  decide

/-- C10: invoked with a resolvable selector and no input argument, the CLI
prints the hex encoding of the resolved entry's 32-byte content identifier —
64 characters, all lowercase hex digits — and the result does not depend on
either proving backend (both are universally quantified and unused). -/
theorem C10_no_input_prints_image_id
    (prove_locally_cli prove_alpha_cli : List Nat → List Nat → Except String (List Nat))
    (bonsaiEndpointSet alphaSel : Bool) (gl : List GuestListEntry)
    (guest_binary : List Char) (guest_entry : GuestListEntry)
    (hres : resolve_guest_entry gl guest_binary = some guest_entry)
    (hlen : guest_entry.imageId.length = 32) :
    cliMain prove_locally_cli prove_alpha_cli bonsaiEndpointSet alphaSel gl
      guest_binary none = Except.ok (hexEncode guest_entry.imageId) ∧
    (hexEncode guest_entry.imageId).length = 64 ∧
    ∀ c ∈ hexEncode guest_entry.imageId, c ∈ hexDigits := by
  refine ⟨?_, ?_, hexEncode_mem_hexDigits _⟩
  · simp [cliMain, hres]
  · simp [hexEncode_length, hlen]

/-- Witness for C10 at a one-entry registry, name selector, failing
backends. -/
theorem C10_witness :
    cliMain (fun _ _ => Except.error "pl") (fun _ _ => Except.error "pa")
      true true [⟨['F', 'I', 'B'], List.replicate 32 1, []⟩] ['F', 'I', 'B'] none =
      Except.ok (hexEncode (List.replicate 32 1)) ∧
    (hexEncode (List.replicate 32 1)).length = 64 ∧
    ∀ c ∈ hexEncode (List.replicate 32 1), c ∈ hexDigits :=
  C10_no_input_prints_image_id (fun _ _ => Except.error "pl")
    (fun _ _ => Except.error "pa") true true
    [⟨['F', 'I', 'B'], List.replicate 32 1, []⟩] ['F', 'I', 'B']
    ⟨['F', 'I', 'B'], List.replicate 32 1, []⟩ (by decide) (by decide)
